import Mathlib

/-!
Verification development for the proyectFem retrieval-and-aggregation scripts.

The Python sources are shallowly embedded:
* `x_counts.py` — the cursor-pagination counting loop `count_popular_tweets`.
  The HTTP transport is modelled as the finite list of responses the remote
  side hands to successive `requests.get` calls; the `while True` loop is a
  structural recursion on that list (an empty remainder means the modelled
  response stream ended before the loop did, reported as `none`).
* `x_counts_recent.py` — the bucketed daily-counts table builder and the
  conversation-id deduplicator.
* `x_download_tweets_grok.py` — the per-conversation reply downloader built
  on a paginator, with its rate-limit and generic-exception handlers.

Machine integers do not overflow in these scripts (Python ints), so counts
are `Nat` and timestamps are `Int` seconds.
-/

/-- An item returned by the recent-search endpoint; only
`public_metrics.like_count` participates in the threshold filter of
`x_counts.py`. -/
structure Tweet where
  like_count : Nat
deriving DecidableEq, Repr

/-- One page of a paginated search response: the `data` array and the
`meta.next_token` continuation cursor (absent means last page). -/
structure Page where
  data : List Tweet
  next_token : Option String
deriving DecidableEq, Repr

/-- One outcome of a `requests.get` call as seen by `count_popular_tweets`:
a 200 response carrying a page, a non-200 response with its status code
and body, or the call itself raising a connection-level exception —
`count_popular_tweets` wraps the call in no `try`, so such an exception
propagates out of the function. -/
inductive HttpResp where
  | ok (page : Page)
  | err (status : Nat) (body : String)
  | exc (msg : String)
deriving DecidableEq, Repr

/-- The inner `for tweet in data` loop of `count_popular_tweets`
(src/x_counts.py lines 64-67): starting from the running total, add 1 for
every tweet whose like count is at least `min_likes`. -/
def foldPage (min_likes : Nat) (total : Nat) (data : List Tweet) : Nat :=
  data.foldl (fun acc t => if min_likes ≤ t.like_count then acc + 1 else acc) total

/-- Terminal state of one pagination loop: `done` when a page arrived with no
`next_token`, `aborted` when a non-200 response broke the loop. -/
inductive TermStatus where
  | done
  | aborted
deriving DecidableEq, Repr

/-- Observable outcome of one pagination loop of `count_popular_tweets`:
the accumulated count, the terminal state, the number of network round
trips made, and the number of pages folded into the aggregate. -/
structure LoopResult where
  total : Nat
  status : TermStatus
  calls : Nat
  folds : Nat
deriving DecidableEq, Repr

/-- The `while True` pagination loop of `count_popular_tweets`
(src/x_counts.py lines 51-73), consuming the successive HTTP responses in
order.  A raised connection exception propagates (`Except.error`) and the
accumulated total is lost; a non-200 response prints and breaks (partial
total kept); a 200 response is folded, then the loop ends if
`meta.next_token` is absent.  `none` means the modelled response list ran
out while the loop still wanted another page. -/
def countLoop (min_likes : Nat) : List HttpResp → Nat → Option (Except String LoopResult)
  | [], _ => none
  | resp :: rest, acc =>
    match resp with
    | .exc msg => some (.error msg)
    | .err _ _ => some (.ok ⟨acc, .aborted, 1, 0⟩)
    | .ok page =>
      match page.next_token with
      | none => some (.ok ⟨foldPage min_likes acc page.data, .done, 1, 1⟩)
      | some _ =>
        (countLoop min_likes rest (foldPage min_likes acc page.data)).map
          fun r => r.map fun q => ⟨q.total, q.status, q.calls + 1, q.folds + 1⟩

/-- Python truthiness of the `BEARER_TOKEN` module global: `os.getenv`
yields `None` when the variable is unset, and `if not BEARER_TOKEN` also
treats an empty string as missing. -/
def tokenPresent (bearer : Option String) : Bool :=
  !(bearer.getD "" == "")

/-- The entry point `count_popular_tweets` (src/x_counts.py lines 26-75):
it raises `RuntimeError` when the bearer token is absent, before the first
network call; otherwise it runs the pagination loop over the transport's
responses. -/
def count_popular_tweets (bearer : Option String) (min_likes : Nat)
    (responses : List HttpResp) : Except String (Option (Except String LoopResult)) :=
  if tokenPresent bearer then .ok (countLoop min_likes responses 0)
  else .error "Set X_BEARER_TOKEN environment variable with your bearer token."

/-- The response ends the pagination loop at the step that receives it: a
raised connection exception, a non-200 error (break at line 60 of
src/x_counts.py), or a page with no continuation token (break at line
73). -/
def stopSignal : HttpResp → Bool
  | .exc _ => true
  | .err _ _ => true
  | .ok page => page.next_token.isNone

/-- The loop terminates on the (possibly infinite) response stream `f`
when some finite prefix of it already drives the loop to a terminal
state. -/
def CountLoopTerminates (min_likes : Nat) (f : Nat → HttpResp) : Prop :=
  ∃ n, (countLoop min_likes ((List.range n).map f) 0).isSome

/-- The mandated grace interval between `end_time` and the wall clock
(src/x_counts.py line 39: `now - timedelta(seconds=20)`). -/
def GRACE_SECONDS : Int := 20

/-- The `end_time` actually placed in the request parameters of
`count_popular_tweets`, as a function of the wall-clock instant `now`
(timestamps in seconds). -/
def end_time (now : Int) : Int := now - GRACE_SECONDS

/-- The stub of the termination claim: three pages carrying continuation
tokens, then a page with an absent `next_token`. -/
def stubResponses : List HttpResp :=
  [ .ok ⟨[⟨12⟩], some "t1"⟩, .ok ⟨[⟨3⟩], some "t2"⟩,
    .ok ⟨[⟨77⟩], some "t3"⟩, .ok ⟨[⟨5⟩], none⟩ ]

/-- The stub as an infinite response stream (repeating its last page once
the four scripted responses are spent; the loop never gets that far). -/
def stubStream : Nat → HttpResp :=
  fun n => stubResponses.getD n (.ok ⟨[⟨5⟩], none⟩)

/-- Whether an HTTP response is a 200 carrying a page at all (as opposed to
an error response, which carries no page). -/
def hasPage : HttpResp → Bool
  | .ok _ => true
  | .err _ _ => false
  | .exc _ => false

/-- A reply tweet collected by the downloader script; its payload is
irrelevant to the control flow, so it is reduced to an id. -/
structure Reply where
  rid : Nat
deriving DecidableEq, Repr

/-- One event produced while iterating the paginator inside
`fetch_conversation_replies` (src/x_download_tweets_grok.py lines 85-102):
a page of response data, a `tweepy.TooManyRequests` exception, or any
other exception. -/
inductive PagEvent where
  | page (data : List Reply)
  | tooManyRequests
  | failure (msg : String)
deriving DecidableEq, Repr

/-- How one call of `fetch_conversation_replies` ended: the paginator ran
out of pages, the rate-limit handler fired, or the generic exception
handler fired. -/
inductive FetchStatus where
  | exhausted
  | rateLimited
  | errored
deriving DecidableEq, Repr

/-- The fixed rate-limit cool-down of src/x_download_tweets_grok.py line
105: `time.sleep(15 * 60 + 5)`. -/
def COOLDOWN_SECONDS : Nat := 15 * 60 + 5

/-- Observable outcome of `fetch_conversation_replies`: the reply list it
returns, how the iteration ended, and the total seconds spent in the
rate-limit cool-down sleep. -/
structure FetchOutcome where
  replies : List Reply
  status : FetchStatus
  cooldownSeconds : Nat
deriving DecidableEq, Repr

/-- The body of `fetch_conversation_replies`
(src/x_download_tweets_grok.py lines 80-108), driven by the sequence of
events its paginator iteration produces.  Pages extend the reply list; a
`TooManyRequests` exception ends the iteration, sleeps the fixed
cool-down once, and falls through to `return replies`; any other
exception ends the iteration and falls through to `return replies`.
Nothing after the first exception event is ever consumed: the function
does not resume fetching. -/
def fetch_conversation_replies : List PagEvent → FetchOutcome
  | [] => ⟨[], .exhausted, 0⟩
  | .page d :: rest =>
    let r := fetch_conversation_replies rest
    ⟨d ++ r.replies, r.status, r.cooldownSeconds⟩
  | .tooManyRequests :: _ => ⟨[], .rateLimited, COOLDOWN_SECONDS⟩
  | .failure _ :: _ => ⟨[], .errored, 0⟩

/-- Python string slice `s[:10]` used to turn an RFC3339 `start` timestamp
into its `YYYY-MM-DD` day key (src/x_counts_recent.py line 102). -/
def sliceTen (s : String) : String := ⟨s.data.take 10⟩

/-- One row of the `/2/tweets/counts/recent` response `data` array as read
by the script: the bucket `start` timestamp and its `tweet_count` (the
`end` field is never read). -/
structure CountRow where
  start : String
  tweet_count : Nat
deriving DecidableEq, Repr

/-- Pandas `read_csv` parsing of one cell of the `conversation_id` column:
with the default `na_values`, a blank field is parsed as missing (`NaN`);
any other field is kept. -/
def parseField (s : String) : Option String :=
  if s = "" then none else some s

/-- The `conversation_id` column as both scripts consume it, after
`pd.read_csv(...)["conversation_id"].dropna().astype(str)`: each raw cell
is either absent (`none`) or a raw string; parsing turns blank cells into
missing ones and `dropna` removes the missing ones. -/
def readConversationColumn (cells : List (Option String)) : List String :=
  cells.filterMap fun c => c.bind parseField

/-- The seen-set deduplication loop shared verbatim by
`extract_conversation_ids` (src/x_counts_recent.py lines 61-66) and
`load_conversation_ids` (src/x_download_tweets_grok.py lines 66-71):
`seen` holds the values already kept, `unique_ids` the kept values in
reverse insertion order. -/
def dedupLoop : List String → List String → List String → List String
  | [], _, unique_ids => unique_ids.reverse
  | v :: rest, seen, unique_ids =>
    if v ∈ seen then dedupLoop rest seen unique_ids
    else dedupLoop rest (v :: seen) (v :: unique_ids)

/-- `extract_conversation_ids` (src/x_counts_recent.py lines 46-68),
applied to the raw cells of the CSV's `conversation_id` column. -/
def extract_conversation_ids (cells : List (Option String)) : List String :=
  dedupLoop (readConversationColumn cells) [] []

/-- `load_conversation_ids` (src/x_download_tweets_grok.py lines 58-73),
applied to the raw cells of the CSV's `conversation_id` column; its loop
body is identical to the one in `extract_conversation_ids`. -/
def load_conversation_ids (cells : List (Option String)) : List String :=
  dedupLoop (readConversationColumn cells) [] []

/-- Specification-side description of first-occurrence deduplication: keep
the first copy of each value, drop every later copy. -/
def firstOccur : List String → List String
  | [] => []
  | v :: rest => v :: firstOccur (rest.filter fun w => w != v)
termination_by l => l.length
decreasing_by
  simp only [List.length_cons]
  exact Nat.lt_succ_of_le (List.length_filter_le _ _)

/-- The candidate loop in `main` of src/x_counts_recent.py (lines 96-109):
for each `(short_name, query)` pair, `fetch_counts` either raises — a
`RuntimeError` on any non-200 response, which propagates and aborts the
whole run — or returns the response rows; the first candidate fixes
`index_dates`, and every candidate appends its counts column to
`out_dict` in insertion order. -/
def buildCountsLoop (fetch : String → Except String (List CountRow)) :
    List (String × String) → Option (List String) → List (String × List Nat) →
    Except String (Option (List String) × List (String × List Nat))
  | [], index_dates, out_dict => .ok (index_dates, out_dict)
  | (short_name, query) :: rest, index_dates, out_dict =>
    match fetch query with
    | .error e => .error e
    | .ok data =>
      let index_dates' :=
        match index_dates with
        | none => some (data.map fun row => sliceTen row.start)
        | some l => some l
      buildCountsLoop fetch rest index_dates'
        (out_dict ++ [(short_name, data.map fun row => row.tweet_count)])

/-- `main` of src/x_counts_recent.py on the counts path (lines 90-113):
fail fast when the bearer token is absent, otherwise run the candidate
loop and assemble the `DataFrame`: rows labelled by `index_dates`, one
column per candidate in insertion order. -/
def countsRecentRun (bearer : Option String) (candidates : List (String × String))
    (fetch : String → Except String (List CountRow)) :
    Except String (List String × List (String × List Nat)) :=
  if tokenPresent bearer then
    match buildCountsLoop fetch candidates none [] with
    | .error e => .error e
    | .ok (index_dates, out_dict) => .ok (index_dates.getD [], out_dict)
  else .error "X_BEARER_TOKEN is not set in the environment."

/-- The per-conversation loop of `main` in src/x_download_tweets_grok.py
(lines 127-131): every deduplicated conversation id receives exactly one
entry `all_replies[conv_id] = replies`, where `replies` is whatever
`fetch_conversation_replies` returned for that id — the full reply list,
or the partial one collected before a failure. -/
def grokMainLoop (ids : List String) (events : String → List PagEvent) :
    List (String × List Reply) :=
  ids.map fun conv_id =>
    (conv_id, (fetch_conversation_replies (events conv_id)).replies)

/-- `main` of src/x_download_tweets_grok.py (lines 111-145): fail fast when
the bearer token is absent — before the client is even constructed —
otherwise load and deduplicate the conversation ids and run the
per-conversation loop. -/
def grokMainRun (bearer : Option String) (cells : List (Option String))
    (events : String → List PagEvent) :
    Except String (List (String × List Reply)) :=
  if tokenPresent bearer then
    .ok (grokMainLoop (load_conversation_ids cells) events)
  else .error "Set the X_BEARER_TOKEN environment variable with your bearer token."

/-- The concrete fetch oracle of the error-scoping counterexample: the
first candidate's query fails with a non-200 error, the second candidate's
query would succeed with two daily buckets. -/
def c6Fetch : String → Except String (List CountRow) :=
  fun q =>
    if q = "Q1" then .error "Error 500: boom"
    else .ok [⟨"2025-01-01T00:00:00.000Z", 5⟩, ⟨"2025-01-02T00:00:00.000Z", 7⟩]

/-- Claim C8: every time window used in a request by `count_popular_tweets`
has an `end` at least the 20-second grace interval in the past, strictly
before the wall-clock request time; so no window violating the grace
invariant is ever constructed. -/
theorem claim_C8_time_window (now : Int) :
    GRACE_SECONDS ≤ now - end_time now ∧ end_time now < now := by
  constructor
  · simp [end_time]
  · have h20 : (0:Int) < GRACE_SECONDS := by norm_num [GRACE_SECONDS]
    simp only [end_time]
    omega

/-- Claim C5: the threshold counter of `count_popular_tweets` counts exactly
the items whose like count meets or exceeds the threshold, and the bound is
inclusive: a single item sitting exactly at the threshold is counted. -/
theorem claim_C5_threshold_counter :
    (∀ (min_likes total : Nat) (items : List Tweet),
        foldPage min_likes total items
          = total + (items.filter fun t => min_likes ≤ t.like_count).length)
  ∧ (∀ n : Nat, foldPage n 0 [⟨n⟩] = 1) := by
  have key : ∀ (min_likes : Nat) (items : List Tweet) (total : Nat),
      foldPage min_likes total items
        = total + (items.filter fun t => min_likes ≤ t.like_count).length := by
    intro min_likes items
    induction items with
    | nil => intro total; simp [foldPage]
    | cons t rest ih =>
      intro total
      by_cases h : min_likes ≤ t.like_count
      · simp only [foldPage, List.foldl_cons, if_pos h] at *
        rw [ih (total + 1)]
        simp [List.filter_cons, h]
        omega
      · simp only [foldPage, List.foldl_cons, if_neg h] at *
        rw [ih total]
        simp [List.filter_cons, h]
  refine ⟨fun m total items => key m items total, fun n => ?_⟩
  rw [key n [⟨n⟩] 0]
  simp

/-- Unfolding equation: a raised connection exception propagates out of
the loop and the accumulated total is discarded. -/
theorem countLoop_cons_exc (m : Nat) (msg : String) (L : List HttpResp) (acc : Nat) :
    countLoop m (HttpResp.exc msg :: L) acc = some (.error msg) := rfl

/-- Unfolding equation: a non-200 response breaks the loop with the
accumulated total. -/
theorem countLoop_cons_err (m s : Nat) (b : String) (L : List HttpResp) (acc : Nat) :
    countLoop m (HttpResp.err s b :: L) acc = some (.ok ⟨acc, .aborted, 1, 0⟩) := rfl

/-- Unfolding equation: a page without a continuation token is folded and
then the loop ends in the DONE state. -/
theorem countLoop_cons_ok_none (m : Nat) (d : List Tweet) (L : List HttpResp) (acc : Nat) :
    countLoop m (HttpResp.ok ⟨d, none⟩ :: L) acc
      = some (.ok ⟨foldPage m acc d, .done, 1, 1⟩) := rfl

/-- Unfolding equation: a page with a continuation token is folded and the
loop continues with the remaining responses. -/
theorem countLoop_cons_ok_some (m : Nat) (d : List Tweet) (t : String)
    (L : List HttpResp) (acc : Nat) :
    countLoop m (HttpResp.ok ⟨d, some t⟩ :: L) acc
      = (countLoop m L (foldPage m acc d)).map
          (fun r => r.map fun q => ⟨q.total, q.status, q.calls + 1, q.folds + 1⟩) := rfl

/-- Helper: a response list containing a stopping response (an error, or a
page with no continuation token) drives the pagination loop to a terminal
state. -/
theorem countLoop_isSome_of_stop (min_likes : Nat) :
    ∀ (rs : List HttpResp) (acc : Nat),
      (∃ r ∈ rs, stopSignal r = true) → (countLoop min_likes rs acc).isSome := by
  intro rs
  induction rs with
  | nil => intro acc h; simp at h
  | cons r rest ih =>
    intro acc h
    match r with
    | .exc msg => simp [countLoop_cons_exc]
    | .err s b => simp [countLoop_cons_err]
    | .ok ⟨pdata, ptok⟩ =>
      match ptok with
      | none => simp [countLoop_cons_ok_none]
      | some t =>
        obtain ⟨r', hr', hstop⟩ := h
        rcases List.mem_cons.mp hr' with rfl | hmem
        · simp [stopSignal] at hstop
        · have h' := ih (foldPage min_likes acc pdata) ⟨r', hmem, hstop⟩
          rw [countLoop_cons_ok_some]
          cases hc : countLoop min_likes rest (foldPage min_likes acc pdata) with
          | none => rw [hc] at h'; simp at h'
          | some v => simp [hc]

/-- Helper: if the pagination loop reaches a terminal state on a response
list, some response in the list is a stopping response. -/
theorem exists_stop_of_countLoop_isSome (min_likes : Nat) :
    ∀ (rs : List HttpResp) (acc : Nat),
      (countLoop min_likes rs acc).isSome → ∃ r ∈ rs, stopSignal r = true := by
  intro rs
  induction rs with
  | nil => intro acc h; simp [countLoop] at h
  | cons r rest ih =>
    intro acc h
    match r with
    | .exc msg => exact ⟨.exc msg, List.mem_cons_self _ _, rfl⟩
    | .err s b => exact ⟨.err s b, List.mem_cons_self _ _, rfl⟩
    | .ok ⟨pdata, ptok⟩ =>
      match ptok with
      | none => exact ⟨.ok ⟨pdata, none⟩, List.mem_cons_self _ _, rfl⟩
      | some t =>
        rw [countLoop_cons_ok_some] at h
        have h2 : (countLoop min_likes rest (foldPage min_likes acc pdata)).isSome := by
          cases hc : countLoop min_likes rest (foldPage min_likes acc pdata) with
          | none => rw [hc] at h; simp at h
          | some v => simp
        obtain ⟨r', hmem, hstop⟩ := ih _ h2
        exact ⟨r', List.mem_cons_of_mem _ hmem, hstop⟩

/-- Helper: the pagination loop over a block of successful pages (each
carrying a continuation token) folds all of their items, then continues on
the remaining responses. -/
theorem countLoop_map_pages (min_likes : Nat) :
    ∀ (pages : List (List Tweet)) (rest : List HttpResp) (acc : Nat),
      countLoop min_likes
          (pages.map (fun d => HttpResp.ok ⟨d, some "cursor"⟩) ++ rest) acc
        = (countLoop min_likes rest (foldPage min_likes acc pages.flatten)).map
            (fun r => r.map fun q => ⟨q.total, q.status, q.calls + pages.length,
                       q.folds + pages.length⟩) := by
  intro pages
  induction pages with
  | nil =>
    intro rest acc
    simp only [List.map_nil, List.nil_append, List.flatten_nil, List.length_nil]
    have hacc : foldPage min_likes acc [] = acc := by simp [foldPage]
    rw [hacc]
    cases hx : countLoop min_likes rest acc with
    | none => simp
    | some r => cases r <;> simp [Except.map]
  | cons d ds ih =>
    intro rest acc
    have hstep : (List.map (fun d => HttpResp.ok ⟨d, some "cursor"⟩) (d :: ds) ++ rest)
        = HttpResp.ok ⟨d, some "cursor"⟩
            :: (List.map (fun d => HttpResp.ok ⟨d, some "cursor"⟩) ds ++ rest) := by
      simp
    rw [hstep, countLoop_cons_ok_some, ih rest (foldPage min_likes acc d)]
    have hfold : foldPage min_likes (foldPage min_likes acc d) ds.flatten
        = foldPage min_likes acc ((d :: ds).flatten) := by
      simp [foldPage, List.flatten_cons, List.foldl_append]
    rw [hfold]
    cases countLoop min_likes rest (foldPage min_likes acc ((d :: ds).flatten)) with
    | none => simp
    | some r =>
      cases r with
      | error e => simp [Except.map]
      | ok q =>
        simp only [Option.map_some', Except.map, Option.some.injEq,
          Except.ok.injEq, LoopResult.mk.injEq, List.length_cons]
        refine ⟨trivial, trivial, by omega, by omega⟩

/-- Claim C2 (amended): the loop terminates iff some fetch eventually
yields a stopping outcome — a non-200 response, a raised connection
exception, or a page with an absent cursor; restricted to all-successful
response streams this is exactly "some page has an absent cursor".  On the
stub of three pages with cursors followed by a page with no cursor, the
driver makes 4 calls, folds every fetched page exactly once (4 folds), and
ends in the DONE terminal state. -/
theorem claim_C2_amended_termination :
    (∀ (min_likes : Nat) (f : Nat → HttpResp),
        CountLoopTerminates min_likes f ↔ ∃ n, stopSignal (f n) = true)
  ∧ (∀ (min_likes : Nat) (pages : Nat → Page),
        CountLoopTerminates min_likes (fun n => HttpResp.ok (pages n))
          ↔ ∃ n, (pages n).next_token = none)
  ∧ countLoop 0 stubResponses 0 = some (.ok ⟨4, .done, 4, 4⟩)
  ∧ CountLoopTerminates 0 stubStream := by
  have main : ∀ (m : Nat) (f : Nat → HttpResp),
      CountLoopTerminates m f ↔ ∃ n, stopSignal (f n) = true := by
    intro m f
    constructor
    · rintro ⟨n, h⟩
      obtain ⟨r, hr, hstop⟩ := exists_stop_of_countLoop_isSome m _ 0 h
      obtain ⟨i, _, rfl⟩ := List.mem_map.mp hr
      exact ⟨i, hstop⟩
    · rintro ⟨n, h⟩
      refine ⟨n + 1, countLoop_isSome_of_stop m _ 0 ⟨f n, ?_, h⟩⟩
      exact List.mem_map.mpr ⟨n, List.mem_range.mpr (Nat.lt_succ_self n), rfl⟩
  refine ⟨main, fun m pages => ?_, rfl, ⟨4, by decide⟩⟩
  rw [main]
  constructor
  · rintro ⟨n, h⟩
    exact ⟨n, by simpa [stopSignal, Option.isNone_iff_eq_none] using h⟩
  · rintro ⟨n, h⟩
    exact ⟨n, by simp [stopSignal, h]⟩

/-- Claim C2 fails as stated: on the stream whose every fetch is a 500
error, the pagination loop terminates (it breaks on the first non-200
response), yet no fetch ever returns a page at all — in particular none
returns a page with an absent cursor.  So termination does not imply that
some fetch returned a cursor-less page. -/
theorem claim_C2_counterexample :
    CountLoopTerminates 0 (fun _ => HttpResp.err 500 "boom")
    ∧ ¬ ∃ n : Nat, hasPage ((fun _ => HttpResp.err 500 "boom") n) = true := by
  refine ⟨⟨1, by decide⟩, ?_⟩
  rintro ⟨n, h⟩
  simp [hasPage] at h

/-- Helper: the reply fetcher on a run of pages followed by a rate-limit
exception returns exactly the replies of the pages before the exception,
sleeps the fixed cool-down once, and never consumes any later event. -/
theorem fetch_replies_rate_limited (pages : List (List Reply)) (rest : List PagEvent) :
    fetch_conversation_replies
        (pages.map PagEvent.page ++ PagEvent.tooManyRequests :: rest)
      = ⟨pages.flatten, .rateLimited, COOLDOWN_SECONDS⟩ := by
  induction pages with
  | nil => simp [fetch_conversation_replies]
  | cons d ds ih => simp [fetch_conversation_replies, ih]

/-- Helper: the reply fetcher on pages only (the paginator runs to
exhaustion) returns every page's replies in order with no cool-down. -/
theorem fetch_replies_exhausted (pages : List (List Reply)) :
    fetch_conversation_replies (pages.map PagEvent.page)
      = ⟨pages.flatten, .exhausted, 0⟩ := by
  induction pages with
  | nil => simp [fetch_conversation_replies]
  | cons d ds ih => simp [fetch_conversation_replies, ih]

/-- Helper: the reply fetcher on pages followed by a generic exception
returns the replies of the pages before the exception. -/
theorem fetch_replies_errored (pages : List (List Reply)) (msg : String)
    (rest : List PagEvent) :
    fetch_conversation_replies
        (pages.map PagEvent.page ++ PagEvent.failure msg :: rest)
      = ⟨pages.flatten, .errored, 0⟩ := by
  induction pages with
  | nil => simp [fetch_conversation_replies]
  | cons d ds ih => simp [fetch_conversation_replies, ih]

/-- Claim C3 fails as stated for a TransportError in the counting variant:
`count_popular_tweets` wraps `requests.get` in no `try`, so after one
successful page a raised connection exception propagates out of the loop
and the partial count of 1 is discarded — the loop's outcome is the
propagated exception, not the partial aggregate the claim promises. -/
theorem claim_C3_counterexample :
    countLoop 0 [HttpResp.ok ⟨[⟨5⟩], some "t"⟩, HttpResp.exc "connection reset"] 0
      = some (.error "connection reset")
    ∧ countLoop 0 [HttpResp.ok ⟨[⟨5⟩], some "t"⟩, HttpResp.exc "connection reset"] 0
      ≠ some (.ok ⟨1, .aborted, 2, 1⟩) := by
  refine ⟨rfl, ?_⟩
  intro h
  rw [show countLoop 0
        [HttpResp.ok ⟨[⟨5⟩], some "t"⟩, HttpResp.exc "connection reset"] 0
      = some (.error "connection reset") from rfl] at h
  simp at h

/-- Claim C3 (amended): after k successful pages, a non-200 response
(RemoteError) stops the pagination and the partial aggregate is returned,
not discarded — the counting loop returns the threshold count of exactly
the k fetched pages' items, in the ABORTED terminal state, after k+1
calls and k folds.  A raised connection exception (TransportError) in the
counting variant instead propagates and discards the partial count.  The
reply collector, whose loop body is wrapped in a catch-all handler,
returns the partial reply list for any non-rate-limit exception. -/
theorem claim_C3_amended_partial_results :
    (∀ (pages : List (List Tweet)) (status : Nat) (body : String)
        (min_likes : Nat) (rest : List HttpResp),
        countLoop min_likes
            (pages.map (fun d => HttpResp.ok ⟨d, some "cursor"⟩)
              ++ HttpResp.err status body :: rest) 0
          = some (.ok ⟨foldPage min_likes 0 pages.flatten, .aborted,
                  pages.length + 1, pages.length⟩))
  ∧ (∀ (pages : List (List Tweet)) (msg : String)
        (min_likes : Nat) (rest : List HttpResp),
        countLoop min_likes
            (pages.map (fun d => HttpResp.ok ⟨d, some "cursor"⟩)
              ++ HttpResp.exc msg :: rest) 0
          = some (.error msg))
  ∧ (∀ (pages : List (List Reply)) (msg : String) (rest : List PagEvent),
        fetch_conversation_replies
            (pages.map PagEvent.page ++ PagEvent.failure msg :: rest)
          = ⟨pages.flatten, .errored, 0⟩) := by
  refine ⟨?_, ?_, fetch_replies_errored⟩
  · intro pages status body min_likes rest
    rw [countLoop_map_pages, countLoop_cons_err]
    simp only [Option.map_some', Except.map, Option.some.injEq,
      Except.ok.injEq, LoopResult.mk.injEq]
    refine ⟨trivial, trivial, by omega, by omega⟩
  · intro pages msg min_likes rest
    rw [countLoop_map_pages, countLoop_cons_exc]
    simp [Except.map]

/-- Unfolding equation of the first-occurrence deduplication. -/
theorem firstOccur_cons (v : String) (rest : List String) :
    firstOccur (v :: rest) = v :: firstOccur (rest.filter fun w => w != v) := by
  rw [firstOccur]

/-- Helper: the seen-set loop computes first-occurrence deduplication of
the values not yet seen, appended after the already-kept output. -/
theorem dedupLoop_eq_firstOccur :
    ∀ (l seen acc : List String),
      dedupLoop l seen acc
        = acc.reverse ++ firstOccur (l.filter fun w => decide (w ∉ seen)) := by
  intro l
  induction l with
  | nil => intro seen acc; simp [dedupLoop, firstOccur]
  | cons v rest ih =>
    intro seen acc
    by_cases hv : v ∈ seen
    · have hcond : (decide (v ∉ seen)) = false := by simp [hv]
      rw [show dedupLoop (v :: rest) seen acc = dedupLoop rest seen acc from by
            simp [dedupLoop, hv],
          List.filter_cons, hcond]
      simp only [Bool.false_eq_true, if_false]
      exact ih seen acc
    · have hcond : (decide (v ∉ seen)) = true := by simp [hv]
      have hff : (rest.filter fun w => decide (w ∉ seen)).filter (fun w => w != v)
          = rest.filter (fun w => decide (w ∉ v :: seen)) := by
        rw [List.filter_filter]
        refine List.filter_congr ?_
        intro a _
        by_cases hav : a = v
        · subst hav; simp [List.mem_cons]
        · by_cases has : a ∈ seen <;> simp [List.mem_cons, hav, has]
      calc dedupLoop (v :: rest) seen acc
          = dedupLoop rest (v :: seen) (v :: acc) := by simp [dedupLoop, hv]
        _ = (v :: acc).reverse
              ++ firstOccur (rest.filter fun w => decide (w ∉ v :: seen)) := ih _ _
        _ = acc.reverse ++ [v]
              ++ firstOccur ((rest.filter fun w => decide (w ∉ seen)).filter
                   fun w => w != v) := by rw [List.reverse_cons, hff]
        _ = acc.reverse
              ++ firstOccur ((v :: rest).filter fun w => decide (w ∉ seen)) := by
              rw [List.filter_cons, hcond]
              simp only [if_true, firstOccur_cons, List.append_assoc,
                List.singleton_append]

/-- Helper: each value occurs in the first-occurrence deduplication exactly
once if it occurs in the input, and not at all otherwise. -/
theorem firstOccur_count (v : String) (l : List String) :
    (firstOccur l).count v = if v ∈ l then 1 else 0 := by
  induction l using firstOccur.induct with
  | case1 => simp [firstOccur]
  | case2 v' rest ih =>
    rw [firstOccur_cons, List.count_cons]
    by_cases hv : v = v'
    · subst hv
      have hnm : v ∉ rest.filter (fun w => w != v) := by simp [List.mem_filter]
      rw [ih]
      simp [hnm, List.mem_cons]
    · have hmem : (v ∈ rest.filter fun w => w != v') ↔ v ∈ rest := by
        simp [List.mem_filter, hv]
      rw [ih]
      simp [List.mem_cons, hv, hmem, Ne.symm hv]

/-- Helper: the first-occurrence deduplication has no duplicates. -/
theorem firstOccur_nodup (l : List String) : (firstOccur l).Nodup := by
  rw [List.nodup_iff_count_le_one]
  intro a
  rw [firstOccur_count]
  split <;> omega

/-- Helper: the seen-set dedup of the scripts is exactly first-occurrence
deduplication of the parsed column. -/
theorem extract_eq_firstOccur (cells : List (Option String)) :
    extract_conversation_ids cells = firstOccur (readConversationColumn cells) := by
  rw [show extract_conversation_ids cells
        = dedupLoop (readConversationColumn cells) [] [] from rfl,
      dedupLoop_eq_firstOccur]
  have hfe : (readConversationColumn cells).filter
      (fun w => decide (w ∉ ([] : List String))) = readConversationColumn cells := by
    refine List.filter_eq_self.mpr ?_
    intro a _
    simp
  rw [hfe]
  simp

/-- Claim C4: the identifier deduplicator keeps each non-blank, non-missing
value exactly once, in order of first occurrence, silently dropping blank
and missing cells; `load_conversation_ids` behaves identically to
`extract_conversation_ids`, and the worked example holds. -/
theorem claim_C4_deduplicator :
    (∀ cells : List (Option String),
        extract_conversation_ids cells = firstOccur (readConversationColumn cells))
  ∧ (∀ cells : List (Option String),
        load_conversation_ids cells = extract_conversation_ids cells)
  ∧ (∀ (cells : List (Option String)) (v : String),
        (extract_conversation_ids cells).count v
          = if v ∈ readConversationColumn cells then 1 else 0)
  ∧ (∀ s : String, readConversationColumn [some s] = if s = "" then [] else [s])
  ∧ readConversationColumn [none] = []
  ∧ extract_conversation_ids [some "a", some "", some "b", some "a", some "c"]
      = ["a", "b", "c"] := by
  refine ⟨extract_eq_firstOccur, fun cells => rfl, ?_, ?_, rfl, by decide⟩
  · intro cells v
    rw [extract_eq_firstOccur, firstOccur_count]
  · intro s
    by_cases hs : s = "" <;> simp [readConversationColumn, parseField, hs]

/-- Claim C1 fails as stated: with one rate-limit signal between two
successful pages, the reply fetcher returns only the page fetched before
the signal, while the run with no rate-limiting returns both pages — the
aggregated results differ, so the driver does not re-fetch and resume. -/
theorem claim_C1_counterexample :
    ¬ ((fetch_conversation_replies
          [PagEvent.page [⟨1⟩], PagEvent.tooManyRequests, PagEvent.page [⟨2⟩]]).replies
        = (fetch_conversation_replies
            [PagEvent.page [⟨1⟩], PagEvent.page [⟨2⟩]]).replies) := by
  decide

/-- Claim C1 (amended): on one rate-limit signal the driver suspends
exactly once for the fixed cool-down (15 minutes + 5 seconds) and then
returns the partial aggregate of the pages fetched before the signal,
without re-fetching: the pending page and all later pages are dropped,
whereas the run with no rate-limiting aggregates every page.  The counting
variant does not back off at all: it treats a 429 like any other non-200
response and aborts with the partial count. -/
theorem claim_C1_amended_rate_limit :
    (∀ (pages1 pages2 : List (List Reply)),
        fetch_conversation_replies
            (pages1.map PagEvent.page
              ++ PagEvent.tooManyRequests :: pages2.map PagEvent.page)
          = ⟨pages1.flatten, .rateLimited, COOLDOWN_SECONDS⟩)
  ∧ (∀ pages : List (List Reply),
        fetch_conversation_replies (pages.map PagEvent.page)
          = ⟨pages.flatten, .exhausted, 0⟩)
  ∧ (∀ (d : List Tweet) (b : String) (min_likes : Nat) (rest : List HttpResp),
        countLoop min_likes
            (HttpResp.ok ⟨d, some "tok"⟩ :: HttpResp.err 429 b :: rest) 0
          = some (.ok ⟨foldPage min_likes 0 d, .aborted, 2, 1⟩)) := by
  refine ⟨fun pages1 pages2 => fetch_replies_rate_limited pages1 _,
          fetch_replies_exhausted, ?_⟩
  intro d b min_likes rest
  rw [countLoop_cons_ok_some, countLoop_cons_err]
  simp [Except.map]

/-- Claim C7: with two queries answering counts for the same two bucket
keys, the resulting table has exactly those 2 rows — in the bucket order
established by the first query — and 2 columns holding the exact counts of
each query. -/
theorem claim_C7_bucketed_table (a b c d : Nat) :
    countsRecentRun (some "token") [("Jara", "Q1"), ("Matthei", "Q2")]
        (fun q =>
          if q = "Q1" then
            .ok [⟨"2025-01-01T00:00:00.000Z", a⟩, ⟨"2025-01-02T00:00:00.000Z", b⟩]
          else
            .ok [⟨"2025-01-01T00:00:00.000Z", c⟩, ⟨"2025-01-02T00:00:00.000Z", d⟩])
      = Except.ok (["2025-01-01", "2025-01-02"],
                   [("Jara", [a, b]), ("Matthei", [c, d])]) := by
  rfl

/-- Claim C6 fails as stated: in src/x_counts_recent.py a failure while
fetching the first query's counts aborts the whole run — the second
query's loop never runs, and its available results are not materialized
(the run returns the error, not a table). -/
theorem claim_C6_counterexample :
    countsRecentRun (some "token") [("Jara", "Q1"), ("Matthei", "Q2")] c6Fetch
      = Except.error "Error 500: boom"
    ∧ ¬ ∃ (idx : List String) (cols : List (String × List Nat)),
          countsRecentRun (some "token") [("Jara", "Q1"), ("Matthei", "Q2")] c6Fetch
            = Except.ok (idx, cols) := by
  have h : countsRecentRun (some "token") [("Jara", "Q1"), ("Matthei", "Q2")] c6Fetch
      = Except.error "Error 500: boom" := rfl
  refine ⟨h, ?_⟩
  rintro ⟨idx, cols, hok⟩
  rw [h] at hok
  simp at hok

/-- Claim C6 (amended): in the reply downloader a per-identifier fetch
failure is scoped to that identifier's loop — the entry materialized for
any identifier depends only on that identifier's own fetch events, so
failures elsewhere change nothing for it; but in the bucketed counts
script (src/x_counts_recent.py) a fetch error on one query propagates as
an exception and aborts the whole candidate loop, so the sibling query's
results are not materialized. -/
theorem claim_C6_amended_error_scoping :
    (∀ (ids : List String) (e1 e2 : String → List PagEvent) (conv_id : String),
        e1 conv_id = e2 conv_id →
        (grokMainLoop ids e1).filter (fun p => p.1 == conv_id)
          = (grokMainLoop ids e2).filter (fun p => p.1 == conv_id))
  ∧ (∀ (l1 q1 l2 q2 e : String) (fetch : String → Except String (List CountRow)),
        fetch q1 = .error e →
        buildCountsLoop fetch [(l1, q1), (l2, q2)] none [] = .error e) := by
  constructor
  · intro ids e1 e2 conv_id h
    induction ids with
    | nil => rfl
    | cons i rest ih =>
      simp only [grokMainLoop, List.map_cons, List.filter_cons] at *
      by_cases hi : i = conv_id
      · subst hi
        rw [h]
        simp [ih]
      · have hbe : (i == conv_id) = false := by simp [hi]
        rw [hbe]
        simpa using ih
  · intro l1 q1 l2 q2 e fetch h
    simp [buildCountsLoop, h]

/-- Claim C9: when the bearer token is absent from the environment, each of
the three entry points fails fast with its configuration error, uniformly
in whatever the network would have answered — so the failure precedes and
involves no network call. -/
theorem claim_C9_missing_token :
    (∀ (min_likes : Nat) (responses : List HttpResp),
        count_popular_tweets none min_likes responses
          = Except.error
              "Set X_BEARER_TOKEN environment variable with your bearer token.")
  ∧ (∀ (candidates : List (String × String))
        (fetch : String → Except String (List CountRow)),
        countsRecentRun none candidates fetch
          = Except.error "X_BEARER_TOKEN is not set in the environment.")
  ∧ (∀ (cells : List (Option String)) (events : String → List PagEvent),
        grokMainRun none cells events
          = Except.error
              "Set the X_BEARER_TOKEN environment variable with your bearer token.")
  ∧ (∀ (min_likes : Nat) (r1 r2 : List HttpResp),
        count_popular_tweets none min_likes r1
          = count_popular_tweets none min_likes r2) := by
  exact ⟨fun _ _ => rfl, fun _ _ => rfl, fun _ _ => rfl, fun _ _ _ => rfl⟩

/-- Helper: the keys of the reply mapping are exactly the input identifier
list, in order. -/
theorem grokMainLoop_fst (ids : List String) (events : String → List PagEvent) :
    (grokMainLoop ids events).map Prod.fst = ids := by
  induction ids with
  | nil => rfl
  | cons i rest ih =>
    simp only [grokMainLoop, List.map_cons] at ih ⊢
    rw [ih]

/-- Claim C10: the reply downloader's output mapping has exactly one entry
per deduplicated conversation id, in first-seen input order, and an id
whose fetch hit a rate limit or an error is still present, mapped to the
(possibly empty) partial reply list collected before the failure. -/
theorem claim_C10_reply_mapping (cells : List (Option String))
    (events : String → List PagEvent) :
    ((grokMainLoop (load_conversation_ids cells) events).map Prod.fst
        = load_conversation_ids cells)
    ∧ (load_conversation_ids cells).Nodup
    ∧ (∀ (conv_id : String) (pages : List (List Reply)) (rest : List PagEvent),
          conv_id ∈ load_conversation_ids cells →
          events conv_id
            = pages.map PagEvent.page ++ PagEvent.tooManyRequests :: rest →
          (conv_id, pages.flatten) ∈ grokMainLoop (load_conversation_ids cells) events)
    ∧ (∀ (conv_id : String) (pages : List (List Reply)) (msg : String)
          (rest : List PagEvent),
          conv_id ∈ load_conversation_ids cells →
          events conv_id
            = pages.map PagEvent.page ++ PagEvent.failure msg :: rest →
          (conv_id, pages.flatten) ∈ grokMainLoop (load_conversation_ids cells) events) := by
  refine ⟨grokMainLoop_fst _ _, ?_, ?_, ?_⟩
  · rw [show load_conversation_ids cells
        = firstOccur (readConversationColumn cells) from extract_eq_firstOccur cells]
    exact firstOccur_nodup _
  · intro conv_id pages rest hmem hev
    refine List.mem_map.mpr ⟨conv_id, hmem, ?_⟩
    rw [hev, fetch_replies_rate_limited]
  · intro conv_id pages msg rest hmem hev
    refine List.mem_map.mpr ⟨conv_id, hmem, ?_⟩
    rw [hev, fetch_replies_errored]

/-- Witness: the amended termination criterion applied to the concrete
stub stream, whose fourth response is a page with an absent cursor. -/
theorem claim_C2_amended_termination_witness :
    CountLoopTerminates 0 stubStream :=
  (claim_C2_amended_termination.1 0 stubStream).mpr ⟨3, by decide⟩

/-- Witness: the error-scoping statement applied at concrete inputs — a
failure for identifier c1 leaves c2's materialized entry unchanged, and
the counts loop with the first query failing returns that error. -/
theorem claim_C6_amended_error_scoping_witness :
    ((grokMainLoop ["c1", "c2"]
        (fun cid => if cid = "c1" then [PagEvent.failure "boom"]
                    else [PagEvent.page [⟨7⟩]])).filter (fun p => p.1 == "c2")
      = (grokMainLoop ["c1", "c2"]
          (fun cid => if cid = "c1" then [PagEvent.page [⟨9⟩]]
                      else [PagEvent.page [⟨7⟩]])).filter (fun p => p.1 == "c2"))
    ∧ buildCountsLoop c6Fetch [("Jara", "Q1"), ("Matthei", "Q2")] none []
      = .error "Error 500: boom" :=
  ⟨claim_C6_amended_error_scoping.1 ["c1", "c2"] _ _ "c2" rfl,
   claim_C6_amended_error_scoping.2 "Jara" "Q1" "Matthei" "Q2" "Error 500: boom"
     c6Fetch rfl⟩

/-- Witness: the reply-mapping statement applied at a concrete input — the
id a, whose fetch hits a rate limit after two pages, is still mapped to
the two pages collected before the signal. -/
theorem claim_C10_reply_mapping_witness :
    ("a", ([[⟨1⟩], [⟨2⟩]] : List (List Reply)).flatten)
      ∈ grokMainLoop (load_conversation_ids [some "a", some "b"])
          (fun cid =>
            if cid = "a"
            then [PagEvent.page [⟨1⟩], PagEvent.page [⟨2⟩], PagEvent.tooManyRequests]
            else [PagEvent.page [⟨3⟩]]) :=
  (claim_C10_reply_mapping [some "a", some "b"] _).2.2.1 "a" [[⟨1⟩], [⟨2⟩]] []
    (by decide) rfl
